import Mathlib

/-!
Verification of the USART bus driver (`src/usart/usart_bus.h`).

The data model (the `usart_bus_t` structure, the status and error
enumerations, the field widths) is taken directly from the header.
The header declares the operations but their bodies live in the
companion `usart_bus.c`, which is not part of the source tree here;
each operation below is therefore modelled from the specification's
description of its behaviour, as noted in its doc comment.

Hardware registers (the USART peripheral, the two DMA channels) are
modelled abstractly: pointers become `Option Nat` (with `none` playing
the role of a null pointer), callback slots become `Option Nat`
(an abstract reference to a caller function), and the hardware
interrupt flags an interrupt handler inspects become explicit boolean
inputs of the handler. The 16-bit `rx_size`/`tx_size` fields are
modelled as `Nat` with an explicit reduction modulo 2^16 at the point
where the C code stores a `size_t` into the 16-bit field.
-/

/-- Transfer status of one direction of the bus, from `usart_status_t`
in `usart_bus.h`. -/
inductive usart_status_t where
  | USART_STATUS_IDLE
  | USART_STATUS_TRANSFERING
  | USART_STATUS_TRANSFERED
  | USART_STATUS_ERROR
deriving DecidableEq, Repr

/-- Error codes of the bus, from `usart_error_t` in `usart_bus.h`. -/
inductive usart_error_t where
  | USART_ERROR_NONE
  | USART_ERROR_PARITY
  | USART_ERROR_NOISE
  | USART_ERROR_OVERRUN
  | USART_ERROR_FRAMING
  | USART_ERROR_DMA
deriving DecidableEq, Repr

open usart_status_t usart_error_t

/-- Return codes of the fallible operations. `errors.h` is not in the
source tree; modelled from the spec, which distinguishes success, a
"busy" error from `send`/`recv` on a locked channel, and an invalid
reference (null pointer) error from `init`. `E_NO_ERROR = 0` denotes
success. -/
inductive err_t where
  | E_NO_ERROR
  | E_BUSY
  | E_NULL_POINTER
deriving DecidableEq, Repr

open err_t

/-- The default transfer identifier, from `USART_BUS_DEFAULT_TRANSFER_ID`
in `usart_bus.h`. -/
def USART_BUS_DEFAULT_TRANSFER_ID : Nat := 0

/-- The bus instance, from `struct _UsartBus` in `usart_bus.h`.
Hardware references are `Option Nat` (abstract addresses, `none` = null);
the callback slots are `Option Nat` (abstract function references);
`rx_transfer_id`/`tx_transfer_id` hold `uint8_t` values and
`rx_size`/`tx_size` hold `uint16_t` values, both as `Nat`. -/
structure usart_bus_t where
  usart_device : Option Nat
  dma_rx_channel : Option Nat
  dma_tx_channel : Option Nat
  callback : Option Nat
  rx_callback : Option Nat
  dma_rx_locked : Bool
  dma_tx_locked : Bool
  rx_transfer_id : Nat
  tx_transfer_id : Nat
  rx_status : usart_status_t
  tx_status : usart_status_t
  rx_error : usart_error_t
  tx_error : usart_error_t
  rx_size : Nat
  tx_size : Nat
deriving DecidableEq, Repr

/-- The initialization structure, from `struct _UsartBusInit` in
`usart_bus.h`. -/
structure usart_bus_init_t where
  usart_device : Option Nat
  dma_rx_channel : Option Nat
  dma_tx_channel : Option Nat
deriving DecidableEq, Repr

/-- Modelled from the spec: the body of `usart_bus_init` is in
`usart_bus.c`, which is not in the source tree. Per the spec it returns
an error code when a supplied peripheral or DMA channel reference is
invalid (null), and otherwise binds the three hardware resources and
resets all soft state: statuses to idle, errors to none, locks cleared,
and both transfer identifiers to the default. -/
def usart_bus_init (usart : usart_bus_t) (is : usart_bus_init_t) :
    err_t × usart_bus_t :=
  if is.usart_device = none ∨ is.dma_rx_channel = none ∨ is.dma_tx_channel = none then
    (E_NULL_POINTER, usart)
  else
    (E_NO_ERROR,
      { usart with
        usart_device := is.usart_device
        dma_rx_channel := is.dma_rx_channel
        dma_tx_channel := is.dma_tx_channel
        dma_rx_locked := false
        dma_tx_locked := false
        rx_transfer_id := USART_BUS_DEFAULT_TRANSFER_ID
        tx_transfer_id := USART_BUS_DEFAULT_TRANSFER_ID
        rx_status := USART_STATUS_IDLE
        tx_status := USART_STATUS_IDLE
        rx_error := USART_ERROR_NONE
        tx_error := USART_ERROR_NONE })

/-- Modelled from the spec: the body of `usart_bus_send` is in
`usart_bus.c`, which is not in the source tree. Per the spec, if the
tx channel is locked the call fails with a busy error and no side
effects; otherwise it arms the tx DMA channel and sets
`tx_status = transferring`, `tx_error = none`, `tx_size = size`,
`dma_tx_locked = true`. The store of the `size_t` argument into the
`uint16_t` field `tx_size` declared in `usart_bus.h` reduces it
modulo 2^16. -/
def usart_bus_send (usart : usart_bus_t) (size : Nat) :
    err_t × usart_bus_t :=
  if usart.dma_tx_locked then (E_BUSY, usart)
  else
    (E_NO_ERROR,
      { usart with
        tx_status := USART_STATUS_TRANSFERING
        tx_error := USART_ERROR_NONE
        tx_size := size % 65536
        dma_tx_locked := true })

/-- Modelled from the spec: the body of `usart_bus_recv` is in
`usart_bus.c`, which is not in the source tree. Symmetric to
`usart_bus_send` for the rx direction: fails busy without side effects
when the rx channel is locked, otherwise arms the rx DMA channel and
sets `rx_status = transferring`, `rx_error = none`, `rx_size = size`
(reduced modulo 2^16 by the `uint16_t` field), `dma_rx_locked = true`. -/
def usart_bus_recv (usart : usart_bus_t) (size : Nat) :
    err_t × usart_bus_t :=
  if usart.dma_rx_locked then (E_BUSY, usart)
  else
    (E_NO_ERROR,
      { usart with
        rx_status := USART_STATUS_TRANSFERING
        rx_error := USART_ERROR_NONE
        rx_size := size % 65536
        dma_rx_locked := true })

/-- A concrete bus state with both channels locked, used to witness the
locked-channel theorems. -/
def busBothLocked : usart_bus_t :=
  { usart_device := some 1
    dma_rx_channel := some 2
    dma_tx_channel := some 3
    callback := some 10
    rx_callback := none
    dma_rx_locked := true
    dma_tx_locked := true
    rx_transfer_id := 4
    tx_transfer_id := 5
    rx_status := USART_STATUS_TRANSFERING
    tx_status := USART_STATUS_TRANSFERING
    rx_error := USART_ERROR_NONE
    tx_error := USART_ERROR_NONE
    rx_size := 8
    tx_size := 16 }

/-- Result of a DMA channel interrupt handler: the boolean return value
of the C function (`true` when the interrupt belonged to this bus's
channel), the bus state after the call, and whether the handler fired
the registered completion callback. -/
structure DmaIrqResult where
  handled : Bool
  bus : usart_bus_t
  callback_invoked : Bool
deriving DecidableEq, Repr

/-- Modelled from the spec: the body of
`usart_bus_dma_rx_channel_irq_handler` is in `usart_bus.c`, which is not
in the source tree. The transfer-complete flag `tc` and transfer-error
flag `te` of this bus's rx DMA channel are explicit inputs. Per the
spec: if neither flag is set the handler returns false with no side
effects; if the transfer-complete flag is set it sets
`rx_status = transferred`, unlocks the rx channel, invokes the
registered callback and returns true; if the transfer-error flag is set
it sets `rx_status = error` with `rx_error = dma`, unlocks, invokes the
callback and returns true. -/
def usart_bus_dma_rx_channel_irq_handler (usart : usart_bus_t)
    (tc te : Bool) : DmaIrqResult :=
  if tc then
    { handled := true
      bus := { usart with
               rx_status := USART_STATUS_TRANSFERED
               dma_rx_locked := false }
      callback_invoked := usart.callback.isSome }
  else if te then
    { handled := true
      bus := { usart with
               rx_status := USART_STATUS_ERROR
               rx_error := USART_ERROR_DMA
               dma_rx_locked := false }
      callback_invoked := usart.callback.isSome }
  else
    { handled := false, bus := usart, callback_invoked := false }

/-- Modelled from the spec: the body of
`usart_bus_dma_tx_channel_irq_handler` is in `usart_bus.c`, which is not
in the source tree. Symmetric to the rx DMA handler for the tx
direction. -/
def usart_bus_dma_tx_channel_irq_handler (usart : usart_bus_t)
    (tc te : Bool) : DmaIrqResult :=
  if tc then
    { handled := true
      bus := { usart with
               tx_status := USART_STATUS_TRANSFERED
               dma_tx_locked := false }
      callback_invoked := usart.callback.isSome }
  else if te then
    { handled := true
      bus := { usart with
               tx_status := USART_STATUS_ERROR
               tx_error := USART_ERROR_DMA
               dma_tx_locked := false }
      callback_invoked := usart.callback.isSome }
  else
    { handled := false, bus := usart, callback_invoked := false }

/-- Interrupt status flags of the USART peripheral as observed by
`usart_bus_irq_handler`: parity, noise, overrun and framing error
flags, the idle-line flag, and the receive-register-not-empty flag. -/
structure UsartItFlags where
  pe : Bool
  nf : Bool
  ore : Bool
  fe : Bool
  idle : Bool
  rxne : Bool
deriving DecidableEq, Repr

/-- Result of the USART peripheral interrupt handler: the bus state
after the call, whether the completion/error callback was fired, and
whether the per-byte receive callback was fired. -/
structure UsartIrqResult where
  bus : usart_bus_t
  callback_invoked : Bool
  rx_callback_invoked : Bool
deriving DecidableEq, Repr

/-- Modelled from the spec: the body of `usart_bus_irq_handler` is in
`usart_bus.c`, which is not in the source tree. The peripheral's
interrupt flags and the rx DMA channel's remaining-count register are
explicit inputs. Per the spec, in priority order: (a) if an error
condition flag is set (parity, noise, overrun, framing) the handler
sets `rx_status = error` with the corresponding error code, unlocks the
rx channel and invokes the registered callback; (b) otherwise, if the
idle-line flag is set while `rx_status = transferring`, it finalizes
the rx transfer as transferred, computing the actual byte count from
the DMA channel's remaining count (`rx_size - remaining`), unlocks the
rx channel and invokes the callback; (c) independently, if the
receive-byte-ready flag is set and a per-byte rx callback is
registered, that callback is invoked (no bus field changes). -/
def usart_bus_irq_handler (usart : usart_bus_t) (f : UsartItFlags)
    (dma_rx_remaining : Nat) : UsartIrqResult :=
  let rxcb := f.rxne && usart.rx_callback.isSome
  if f.pe then
    { bus := { usart with
               rx_status := USART_STATUS_ERROR
               rx_error := USART_ERROR_PARITY
               dma_rx_locked := false }
      callback_invoked := usart.callback.isSome
      rx_callback_invoked := rxcb }
  else if f.nf then
    { bus := { usart with
               rx_status := USART_STATUS_ERROR
               rx_error := USART_ERROR_NOISE
               dma_rx_locked := false }
      callback_invoked := usart.callback.isSome
      rx_callback_invoked := rxcb }
  else if f.ore then
    { bus := { usart with
               rx_status := USART_STATUS_ERROR
               rx_error := USART_ERROR_OVERRUN
               dma_rx_locked := false }
      callback_invoked := usart.callback.isSome
      rx_callback_invoked := rxcb }
  else if f.fe then
    { bus := { usart with
               rx_status := USART_STATUS_ERROR
               rx_error := USART_ERROR_FRAMING
               dma_rx_locked := false }
      callback_invoked := usart.callback.isSome
      rx_callback_invoked := rxcb }
  else if f.idle ∧ usart.rx_status = USART_STATUS_TRANSFERING then
    { bus := { usart with
               rx_status := USART_STATUS_TRANSFERED
               rx_size := usart.rx_size - dma_rx_remaining
               dma_rx_locked := false }
      callback_invoked := usart.callback.isSome
      rx_callback_invoked := rxcb }
  else
    { bus := usart, callback_invoked := false, rx_callback_invoked := rxcb }

/-- Modelled from the spec: the body of `usart_bus_sleep` is in
`usart_bus.c`, which is not in the source tree. Per the spec it
discards the current data stream up to the idle mark and leaves the rx
channel idle and unlocked. -/
def usart_bus_sleep (usart : usart_bus_t) : usart_bus_t :=
  { usart with rx_status := USART_STATUS_IDLE, dma_rx_locked := false }

/-- Modelled from the spec: the body of `usart_bus_wake` is in
`usart_bus.c`, which is not in the source tree. Per the spec it begins
capturing the current stream without waiting for an idle mark; the
status lifecycle lists `wake` alongside `send`/`recv` as an operation
entering `transferring`, arming (locking) the rx channel and resetting
the rx error code. -/
def usart_bus_wake (usart : usart_bus_t) : usart_bus_t :=
  { usart with
    rx_status := USART_STATUS_TRANSFERING
    rx_error := USART_ERROR_NONE
    dma_rx_locked := true }

/-- Modelled from the spec: the body of `usart_bus_rx_busy` is in
`usart_bus.c`, which is not in the source tree. Per the spec it reports
whether `rx_status` is exactly `transferring`. Modelled state-passing
(result value paired with the bus state after the call) so that the
absence of mutation is a provable property rather than a typing
artifact. -/
def usart_bus_rx_busy (usart : usart_bus_t) : Bool × usart_bus_t :=
  (decide (usart.rx_status = USART_STATUS_TRANSFERING), usart)

/-- Modelled from the spec: the body of `usart_bus_tx_busy` is in
`usart_bus.c`, which is not in the source tree. Per the spec it reports
whether `tx_status` is exactly `transferring`. -/
def usart_bus_tx_busy (usart : usart_bus_t) : Bool × usart_bus_t :=
  (decide (usart.tx_status = USART_STATUS_TRANSFERING), usart)

/-- Modelled from the spec: the body of `usart_bus_rx_status` is in
`usart_bus.c`, which is not in the source tree. Reads the rx channel
status. -/
def usart_bus_rx_status (usart : usart_bus_t) : usart_status_t × usart_bus_t :=
  (usart.rx_status, usart)

/-- Modelled from the spec: the body of `usart_bus_tx_status` is in
`usart_bus.c`, which is not in the source tree. Reads the tx channel
status. -/
def usart_bus_tx_status (usart : usart_bus_t) : usart_status_t × usart_bus_t :=
  (usart.tx_status, usart)

/-- Modelled from the spec: the body of `usart_bus_rx_error` is in
`usart_bus.c`, which is not in the source tree. Reads the rx channel
error code. -/
def usart_bus_rx_error (usart : usart_bus_t) : usart_error_t × usart_bus_t :=
  (usart.rx_error, usart)

/-- Modelled from the spec: the body of `usart_bus_tx_error` is in
`usart_bus.c`, which is not in the source tree. Reads the tx channel
error code. -/
def usart_bus_tx_error (usart : usart_bus_t) : usart_error_t × usart_bus_t :=
  (usart.tx_error, usart)

/-- Modelled from the spec: the body of `usart_bus_rx_transfer_id` is in
`usart_bus.c`, which is not in the source tree. Reads the rx transfer
identifier. -/
def usart_bus_rx_transfer_id (usart : usart_bus_t) : Nat × usart_bus_t :=
  (usart.rx_transfer_id, usart)

/-- Modelled from the spec: the body of `usart_bus_tx_transfer_id` is in
`usart_bus.c`, which is not in the source tree. Reads the tx transfer
identifier. -/
def usart_bus_tx_transfer_id (usart : usart_bus_t) : Nat × usart_bus_t :=
  (usart.tx_transfer_id, usart)

/-- Modelled from the spec: the body of `usart_bus_callback` is in
`usart_bus.c`, which is not in the source tree. Reads the
completion/error callback slot. -/
def usart_bus_callback (usart : usart_bus_t) : Option Nat × usart_bus_t :=
  (usart.callback, usart)

/-- Modelled from the spec: the body of `usart_bus_rx_callback` is in
`usart_bus.c`, which is not in the source tree. Reads the per-byte
receive callback slot. -/
def usart_bus_rx_callback (usart : usart_bus_t) : Option Nat × usart_bus_t :=
  (usart.rx_callback, usart)

/-- Modelled from the spec: the body of `usart_bus_set_rx_transfer_id`
is in `usart_bus.c`, which is not in the source tree. Per the spec it
succeeds exactly when the rx channel is unlocked, storing the new
identifier; when the channel is locked it fails and the stored
identifier is retained. -/
def usart_bus_set_rx_transfer_id (usart : usart_bus_t) (id : Nat) :
    Bool × usart_bus_t :=
  if usart.dma_rx_locked then (false, usart)
  else (true, { usart with rx_transfer_id := id })

/-- Modelled from the spec: the body of `usart_bus_set_tx_transfer_id`
is in `usart_bus.c`, which is not in the source tree. Symmetric to the
rx setter for the tx direction. -/
def usart_bus_set_tx_transfer_id (usart : usart_bus_t) (id : Nat) :
    Bool × usart_bus_t :=
  if usart.dma_tx_locked then (false, usart)
  else (true, { usart with tx_transfer_id := id })

/-- A concrete bus state with both channels unlocked and idle, used as
a starting point for witnesses of the success-path theorems. -/
def busUnlocked : usart_bus_t :=
  { usart_device := some 1
    dma_rx_channel := some 2
    dma_tx_channel := some 3
    callback := some 10
    rx_callback := none
    dma_rx_locked := false
    dma_tx_locked := false
    rx_transfer_id := 0
    tx_transfer_id := 0
    rx_status := USART_STATUS_IDLE
    tx_status := USART_STATUS_IDLE
    rx_error := USART_ERROR_NONE
    tx_error := USART_ERROR_NONE
    rx_size := 0
    tx_size := 0 }

/-- Peripheral interrupt flags with only the idle-line flag set. -/
def flagsIdleOnly : UsartItFlags :=
  { pe := false, nf := false, ore := false, fe := false, idle := true, rxne := false }

/-- A concrete valid initialization structure (all three hardware
references non-null). -/
def cfgValid : usart_bus_init_t :=
  { usart_device := some 1, dma_rx_channel := some 2, dma_tx_channel := some 3 }

/-- A concrete invalid initialization structure (null DMA rx channel). -/
def cfgNullRx : usart_bus_init_t :=
  { usart_device := some 1, dma_rx_channel := none, dma_tx_channel := some 3 }

/-- The error/status pairing invariant: whenever a direction's status is
`USART_STATUS_ERROR`, that direction's error code is not
`USART_ERROR_NONE`. -/
def usart_error_inv (b : usart_bus_t) : Prop :=
  (b.rx_status = USART_STATUS_ERROR → b.rx_error ≠ USART_ERROR_NONE) ∧
  (b.tx_status = USART_STATUS_ERROR → b.tx_error ≠ USART_ERROR_NONE)

/-- Bus states reachable through the driver's API: a successful
`usart_bus_init` from an arbitrary prior state, followed by any
sequence of `send`, `recv`, `sleep`, `wake` and the three interrupt
handlers (with arbitrary hardware flag and remaining-count inputs). -/
inductive UsartReachable : usart_bus_t → Prop where
  | init (b : usart_bus_t) (cfg : usart_bus_init_t)
      (h : (usart_bus_init b cfg).1 = E_NO_ERROR) :
      UsartReachable (usart_bus_init b cfg).2
  | send (b : usart_bus_t) (size : Nat) :
      UsartReachable b → UsartReachable (usart_bus_send b size).2
  | recv (b : usart_bus_t) (size : Nat) :
      UsartReachable b → UsartReachable (usart_bus_recv b size).2
  | sleep (b : usart_bus_t) :
      UsartReachable b → UsartReachable (usart_bus_sleep b)
  | wake (b : usart_bus_t) :
      UsartReachable b → UsartReachable (usart_bus_wake b)
  | irq (b : usart_bus_t) (f : UsartItFlags) (r : Nat) :
      UsartReachable b → UsartReachable (usart_bus_irq_handler b f r).bus
  | dma_rx (b : usart_bus_t) (tc te : Bool) :
      UsartReachable b → UsartReachable (usart_bus_dma_rx_channel_irq_handler b tc te).bus
  | dma_tx (b : usart_bus_t) (tc te : Bool) :
      UsartReachable b → UsartReachable (usart_bus_dma_tx_channel_irq_handler b tc te).bus

/-- C1: a `send` on a bus whose tx channel is locked returns the busy
error code and leaves every field of the bus unchanged, and a `recv`
on a bus whose rx channel is locked likewise returns busy and leaves
the bus unchanged. -/
theorem usart_bus_send_recv_locked_busy (usart : usart_bus_t) (size : Nat) :
    (usart.dma_tx_locked = true → usart_bus_send usart size = (E_BUSY, usart)) ∧
    (usart.dma_rx_locked = true → usart_bus_recv usart size = (E_BUSY, usart)) := by
  constructor
  · intro h
    simp [usart_bus_send, h]
  · intro h
    simp [usart_bus_recv, h]

/-- C1 witness: on the concrete doubly-locked bus, `send` and `recv`
with size 4 both return busy and leave the state unchanged. -/
theorem usart_bus_send_recv_locked_busy_witness :
    usart_bus_send busBothLocked 4 = (E_BUSY, busBothLocked) ∧
    usart_bus_recv busBothLocked 4 = (E_BUSY, busBothLocked) :=
  ⟨(usart_bus_send_recv_locked_busy busBothLocked 4).1 (by decide),
   (usart_bus_send_recv_locked_busy busBothLocked 4).2 (by decide)⟩

/-- C2 counterexample: on a bus with the tx channel unlocked,
`usart_bus_send` with size 65536 succeeds but records `tx_size = 0`,
not 65536, because the `uint16_t` field truncates the `size_t`
argument; so the claim "on return tx_size = size" is false at this
input. -/
theorem usart_bus_send_tx_size_eq_size_counterexample :
    busUnlocked.dma_tx_locked = false ∧
    (usart_bus_send busUnlocked 65536).1 = E_NO_ERROR ∧
    (usart_bus_send busUnlocked 65536).2.tx_size ≠ 65536 := by
  refine ⟨by decide, by decide, by decide⟩

/-- C2 (amended): on every bus whose tx channel is unlocked,
`usart_bus_send` returns success and on return
`tx_status = USART_STATUS_TRANSFERING`, `tx_error = USART_ERROR_NONE`,
`tx_size = size mod 2^16` (hence `tx_size = size` whenever
`size < 2^16`), and `dma_tx_locked = true`. -/
theorem usart_bus_send_unlocked_success (usart : usart_bus_t) (size : Nat)
    (h : usart.dma_tx_locked = false) :
    (usart_bus_send usart size).1 = E_NO_ERROR ∧
    (usart_bus_send usart size).2.tx_status = USART_STATUS_TRANSFERING ∧
    (usart_bus_send usart size).2.tx_error = USART_ERROR_NONE ∧
    (usart_bus_send usart size).2.tx_size = size % 65536 ∧
    (usart_bus_send usart size).2.dma_tx_locked = true := by
  simp [usart_bus_send, h]

/-- C2 witness: a concrete successful `send` of 16 bytes on the
unlocked bus arms the tx channel as the amended claim states. -/
theorem usart_bus_send_unlocked_success_witness :
    (usart_bus_send busUnlocked 16).1 = E_NO_ERROR ∧
    (usart_bus_send busUnlocked 16).2.tx_status = USART_STATUS_TRANSFERING ∧
    (usart_bus_send busUnlocked 16).2.tx_error = USART_ERROR_NONE ∧
    (usart_bus_send busUnlocked 16).2.tx_size = 16 % 65536 ∧
    (usart_bus_send busUnlocked 16).2.dma_tx_locked = true :=
  usart_bus_send_unlocked_success busUnlocked 16 (by decide)

/-- C4: for every bus state and identifier, `set_rx_transfer_id`
(resp. `set_tx_transfer_id`) returns true and stores the identifier
exactly when the rx (resp. tx) channel is unlocked; on a locked
channel it returns false and the bus — in particular the stored
identifier — is unchanged. -/
theorem usart_bus_set_transfer_id_spec (usart : usart_bus_t) (id : Nat) :
    (usart.dma_rx_locked = false →
      usart_bus_set_rx_transfer_id usart id =
        (true, { usart with rx_transfer_id := id })) ∧
    (usart.dma_rx_locked = true →
      usart_bus_set_rx_transfer_id usart id = (false, usart)) ∧
    (usart.dma_tx_locked = false →
      usart_bus_set_tx_transfer_id usart id =
        (true, { usart with tx_transfer_id := id })) ∧
    (usart.dma_tx_locked = true →
      usart_bus_set_tx_transfer_id usart id = (false, usart)) := by
  refine ⟨?_, ?_, ?_, ?_⟩ <;> intro h <;>
    simp [usart_bus_set_rx_transfer_id, usart_bus_set_tx_transfer_id, h]

/-- C4 witness: on the unlocked bus the setters store identifier 42 and
report success; on the locked bus they fail and leave the state
unchanged. -/
theorem usart_bus_set_transfer_id_spec_witness :
    usart_bus_set_rx_transfer_id busUnlocked 42 =
      (true, { busUnlocked with rx_transfer_id := 42 }) ∧
    usart_bus_set_tx_transfer_id busUnlocked 42 =
      (true, { busUnlocked with tx_transfer_id := 42 }) ∧
    usart_bus_set_rx_transfer_id busBothLocked 42 = (false, busBothLocked) ∧
    usart_bus_set_tx_transfer_id busBothLocked 42 = (false, busBothLocked) :=
  ⟨(usart_bus_set_transfer_id_spec busUnlocked 42).1 (by decide),
   (usart_bus_set_transfer_id_spec busUnlocked 42).2.2.1 (by decide),
   (usart_bus_set_transfer_id_spec busBothLocked 42).2.1 (by decide),
   (usart_bus_set_transfer_id_spec busBothLocked 42).2.2.2 (by decide)⟩

/-- C5: `rx_busy` is true iff `rx_status = USART_STATUS_TRANSFERING`
and `tx_busy` is true iff `tx_status = USART_STATUS_TRANSFERING`; both
are false when the status is idle, transferred or error. -/
theorem usart_bus_busy_iff_transfering (usart : usart_bus_t) :
    ((usart_bus_rx_busy usart).1 = true ↔
      usart.rx_status = USART_STATUS_TRANSFERING) ∧
    ((usart_bus_tx_busy usart).1 = true ↔
      usart.tx_status = USART_STATUS_TRANSFERING) ∧
    (usart.rx_status ≠ USART_STATUS_TRANSFERING →
      (usart_bus_rx_busy usart).1 = false) ∧
    (usart.tx_status ≠ USART_STATUS_TRANSFERING →
      (usart_bus_tx_busy usart).1 = false) := by
  refine ⟨?_, ?_, ?_, ?_⟩ <;>
    simp [usart_bus_rx_busy, usart_bus_tx_busy]

/-- C5 witness: the busy predicates on the concrete idle bus (both
statuses idle, so both busy flags are false) and on the transferring
bus. -/
theorem usart_bus_busy_iff_transfering_witness :
    (usart_bus_rx_busy busUnlocked).1 = false ∧
    (usart_bus_tx_busy busUnlocked).1 = false ∧
    (usart_bus_rx_busy busBothLocked).1 = true :=
  ⟨(usart_bus_busy_iff_transfering busUnlocked).2.2.1 (by decide),
   (usart_bus_busy_iff_transfering busUnlocked).2.2.2 (by decide),
   (usart_bus_busy_iff_transfering busBothLocked).1.mpr (by decide)⟩

/-- C7: `init` with all three hardware references non-null returns
success and resets the soft state (statuses idle, errors none, locks
cleared, both transfer identifiers set to the default identifier);
with a null reference it returns the null-pointer error code. -/
theorem usart_bus_init_spec (usart : usart_bus_t) (cfg : usart_bus_init_t) :
    (cfg.usart_device ≠ none → cfg.dma_rx_channel ≠ none →
      cfg.dma_tx_channel ≠ none →
      (usart_bus_init usart cfg).1 = E_NO_ERROR ∧
      (usart_bus_init usart cfg).2.rx_status = USART_STATUS_IDLE ∧
      (usart_bus_init usart cfg).2.tx_status = USART_STATUS_IDLE ∧
      (usart_bus_init usart cfg).2.rx_error = USART_ERROR_NONE ∧
      (usart_bus_init usart cfg).2.tx_error = USART_ERROR_NONE ∧
      (usart_bus_init usart cfg).2.dma_rx_locked = false ∧
      (usart_bus_init usart cfg).2.dma_tx_locked = false ∧
      (usart_bus_init usart cfg).2.rx_transfer_id = USART_BUS_DEFAULT_TRANSFER_ID ∧
      (usart_bus_init usart cfg).2.tx_transfer_id = USART_BUS_DEFAULT_TRANSFER_ID) ∧
    ((cfg.usart_device = none ∨ cfg.dma_rx_channel = none ∨
        cfg.dma_tx_channel = none) →
      (usart_bus_init usart cfg).1 = E_NULL_POINTER) := by
  constructor
  · intro h1 h2 h3
    simp [usart_bus_init, h1, h2, h3]
  · intro h
    simp [usart_bus_init, h]

/-- C7 witness: `init` of the locked bus with the concrete valid
configuration succeeds and resets all soft state; `init` with the
null-rx-channel configuration returns the null-pointer error. -/
theorem usart_bus_init_spec_witness :
    ((usart_bus_init busBothLocked cfgValid).1 = E_NO_ERROR ∧
     (usart_bus_init busBothLocked cfgValid).2.rx_status = USART_STATUS_IDLE ∧
     (usart_bus_init busBothLocked cfgValid).2.tx_status = USART_STATUS_IDLE ∧
     (usart_bus_init busBothLocked cfgValid).2.rx_error = USART_ERROR_NONE ∧
     (usart_bus_init busBothLocked cfgValid).2.tx_error = USART_ERROR_NONE ∧
     (usart_bus_init busBothLocked cfgValid).2.dma_rx_locked = false ∧
     (usart_bus_init busBothLocked cfgValid).2.dma_tx_locked = false ∧
     (usart_bus_init busBothLocked cfgValid).2.rx_transfer_id = USART_BUS_DEFAULT_TRANSFER_ID ∧
     (usart_bus_init busBothLocked cfgValid).2.tx_transfer_id = USART_BUS_DEFAULT_TRANSFER_ID) ∧
    (usart_bus_init busBothLocked cfgNullRx).1 = E_NULL_POINTER :=
  ⟨(usart_bus_init_spec busBothLocked cfgValid).1 (by decide) (by decide) (by decide),
   (usart_bus_init_spec busBothLocked cfgNullRx).2 (by decide)⟩

/-- C9: the `uint16_t` fields `tx_size`/`rx_size` record the `size_t`
argument of `send`/`recv` reduced modulo 2^16, so a requested transfer
of 2^16 bytes or more is recorded truncated — transfers are
effectively bounded at 65535 bytes. -/
theorem usart_bus_transfer_size_mod_65536 (usart : usart_bus_t) (size : Nat) :
    (usart.dma_tx_locked = false →
      (usart_bus_send usart size).2.tx_size = size % 65536) ∧
    (usart.dma_rx_locked = false →
      (usart_bus_recv usart size).2.rx_size = size % 65536) := by
  constructor
  · intro h
    simp [usart_bus_send, h]
  · intro h
    simp [usart_bus_recv, h]

/-- C9 witness: a requested `send` of 70000 bytes on the unlocked bus
records `tx_size = 4464 = 70000 mod 2^16`, and a `recv` of 65536 bytes
records `rx_size = 0`. -/
theorem usart_bus_transfer_size_mod_65536_witness :
    (usart_bus_send busUnlocked 70000).2.tx_size = 70000 % 65536 ∧
    (usart_bus_recv busUnlocked 65536).2.rx_size = 65536 % 65536 ∧
    70000 % 65536 = 4464 :=
  ⟨(usart_bus_transfer_size_mod_65536 busUnlocked 70000).1 (by decide),
   (usart_bus_transfer_size_mod_65536 busUnlocked 65536).2 (by decide),
   by decide⟩

/-- C10: every query accessor returns the bus state unchanged: the
busy predicates, the status, error, transfer-identifier and the two
callback getters all leave every field of the bus instance as it
was. -/
theorem usart_bus_accessors_frame (usart : usart_bus_t) :
    (usart_bus_rx_busy usart).2 = usart ∧
    (usart_bus_tx_busy usart).2 = usart ∧
    (usart_bus_rx_status usart).2 = usart ∧
    (usart_bus_tx_status usart).2 = usart ∧
    (usart_bus_rx_error usart).2 = usart ∧
    (usart_bus_tx_error usart).2 = usart ∧
    (usart_bus_rx_transfer_id usart).2 = usart ∧
    (usart_bus_tx_transfer_id usart).2 = usart ∧
    (usart_bus_callback usart).2 = usart ∧
    (usart_bus_rx_callback usart).2 = usart := by
  refine ⟨rfl, rfl, rfl, rfl, rfl, rfl, rfl, rfl, rfl, rfl⟩

/-- C3: for every bus state, each DMA channel interrupt handler
returns false and changes nothing when neither the completion nor the
error flag of the bus's own channel is set; with the transfer-complete
flag set it marks its direction transferred, unlocks the channel,
fires the registered callback and returns true; with only the
transfer-error flag set it marks its direction in error with the DMA
error code, unlocks, fires the callback and returns true. -/
theorem usart_bus_dma_irq_handlers_spec (usart : usart_bus_t) (tc te : Bool) :
    (tc = false → te = false →
      usart_bus_dma_rx_channel_irq_handler usart tc te =
        { handled := false, bus := usart, callback_invoked := false } ∧
      usart_bus_dma_tx_channel_irq_handler usart tc te =
        { handled := false, bus := usart, callback_invoked := false }) ∧
    (tc = true →
      usart_bus_dma_rx_channel_irq_handler usart tc te =
        { handled := true
          bus := { usart with
                   rx_status := USART_STATUS_TRANSFERED
                   dma_rx_locked := false }
          callback_invoked := usart.callback.isSome } ∧
      usart_bus_dma_tx_channel_irq_handler usart tc te =
        { handled := true
          bus := { usart with
                   tx_status := USART_STATUS_TRANSFERED
                   dma_tx_locked := false }
          callback_invoked := usart.callback.isSome }) ∧
    (tc = false → te = true →
      usart_bus_dma_rx_channel_irq_handler usart tc te =
        { handled := true
          bus := { usart with
                   rx_status := USART_STATUS_ERROR
                   rx_error := USART_ERROR_DMA
                   dma_rx_locked := false }
          callback_invoked := usart.callback.isSome } ∧
      usart_bus_dma_tx_channel_irq_handler usart tc te =
        { handled := true
          bus := { usart with
                   tx_status := USART_STATUS_ERROR
                   tx_error := USART_ERROR_DMA
                   dma_tx_locked := false }
          callback_invoked := usart.callback.isSome }) := by
  refine ⟨?_, ?_, ?_⟩
  · intro h1 h2
    constructor <;>
      simp [usart_bus_dma_rx_channel_irq_handler,
        usart_bus_dma_tx_channel_irq_handler, h1, h2]
  · intro h1
    constructor <;>
      simp [usart_bus_dma_rx_channel_irq_handler,
        usart_bus_dma_tx_channel_irq_handler, h1]
  · intro h1 h2
    constructor <;>
      simp [usart_bus_dma_rx_channel_irq_handler,
        usart_bus_dma_tx_channel_irq_handler, h1, h2]

/-- C3 witness: on the concrete doubly-locked bus the three flag
situations behave as the theorem states — no flags: not handled and
unchanged; completion flag: transferred, unlocked, callback fired;
error flag: DMA error, unlocked, callback fired. -/
theorem usart_bus_dma_irq_handlers_spec_witness :
    (usart_bus_dma_rx_channel_irq_handler busBothLocked false false =
      { handled := false, bus := busBothLocked, callback_invoked := false } ∧
     usart_bus_dma_tx_channel_irq_handler busBothLocked false false =
      { handled := false, bus := busBothLocked, callback_invoked := false }) ∧
    (usart_bus_dma_rx_channel_irq_handler busBothLocked true false =
      { handled := true
        bus := { busBothLocked with
                 rx_status := USART_STATUS_TRANSFERED
                 dma_rx_locked := false }
        callback_invoked := busBothLocked.callback.isSome } ∧
     usart_bus_dma_tx_channel_irq_handler busBothLocked true false =
      { handled := true
        bus := { busBothLocked with
                 tx_status := USART_STATUS_TRANSFERED
                 dma_tx_locked := false }
        callback_invoked := busBothLocked.callback.isSome }) ∧
    (usart_bus_dma_rx_channel_irq_handler busBothLocked false true =
      { handled := true
        bus := { busBothLocked with
                 rx_status := USART_STATUS_ERROR
                 rx_error := USART_ERROR_DMA
                 dma_rx_locked := false }
        callback_invoked := busBothLocked.callback.isSome } ∧
     usart_bus_dma_tx_channel_irq_handler busBothLocked false true =
      { handled := true
        bus := { busBothLocked with
                 tx_status := USART_STATUS_ERROR
                 tx_error := USART_ERROR_DMA
                 dma_tx_locked := false }
        callback_invoked := busBothLocked.callback.isSome }) :=
  ⟨(usart_bus_dma_irq_handlers_spec busBothLocked false false).1 rfl rfl,
   (usart_bus_dma_irq_handlers_spec busBothLocked true false).2.1 rfl,
   (usart_bus_dma_irq_handlers_spec busBothLocked false true).2.2 rfl rfl⟩

/-- C6: while a `recv` is in progress (`rx_status = transferring`) and
no peripheral error flag is pending, handling the idle-line interrupt
finalizes the transfer early: `rx_status` becomes transferred, the
recorded `rx_size` becomes the number of bytes the DMA channel
actually consumed (the armed size minus the channel's remaining
count, not the requested size), and the rx channel is unlocked. -/
theorem usart_bus_idle_line_finalizes_early (usart : usart_bus_t)
    (f : UsartItFlags) (remaining : Nat)
    (hst : usart.rx_status = USART_STATUS_TRANSFERING)
    (hpe : f.pe = false) (hnf : f.nf = false) (hore : f.ore = false)
    (hfe : f.fe = false) (hidle : f.idle = true) :
    (usart_bus_irq_handler usart f remaining).bus.rx_status =
      USART_STATUS_TRANSFERED ∧
    (usart_bus_irq_handler usart f remaining).bus.rx_size =
      usart.rx_size - remaining ∧
    (usart_bus_irq_handler usart f remaining).bus.dma_rx_locked = false := by
  simp [usart_bus_irq_handler, hst, hpe, hnf, hore, hfe, hidle]

/-- C6 witness: the spec's scenario — `recv(buf, 8)` on the unlocked
bus, then 5 bytes arrive (the DMA channel reports 3 remaining) and the
idle-line interrupt fires — yields `rx_status = transferred`, a
reported size of 5 (not 8), and an unlocked rx channel. -/
theorem usart_bus_idle_line_finalizes_early_witness :
    (usart_bus_irq_handler (usart_bus_recv busUnlocked 8).2
        flagsIdleOnly 3).bus.rx_status = USART_STATUS_TRANSFERED ∧
    (usart_bus_irq_handler (usart_bus_recv busUnlocked 8).2
        flagsIdleOnly 3).bus.rx_size = 5 ∧
    (usart_bus_irq_handler (usart_bus_recv busUnlocked 8).2
        flagsIdleOnly 3).bus.dma_rx_locked = false := by
  have h := usart_bus_idle_line_finalizes_early
    (usart_bus_recv busUnlocked 8).2 flagsIdleOnly 3
    (by decide) (by decide) (by decide) (by decide) (by decide) (by decide)
  exact ⟨h.1, by rw [h.2.1]; decide, h.2.2⟩

/-- C8: over all states reachable through `init`, `send`, `recv`,
`sleep`, `wake` and the three interrupt handlers, whenever a
direction's status is `USART_STATUS_ERROR` its error code is not
`USART_ERROR_NONE` (the step entering the error status sets a
non-none code); and each operation that starts a new transfer on a
direction (`send`, `recv`, `wake`) resets that direction's error code
to `USART_ERROR_NONE`. -/
theorem usart_bus_error_pairing_invariant :
    (∀ b : usart_bus_t, UsartReachable b → usart_error_inv b) ∧
    (∀ (b : usart_bus_t) (size : Nat), b.dma_tx_locked = false →
      (usart_bus_send b size).2.tx_error = USART_ERROR_NONE) ∧
    (∀ (b : usart_bus_t) (size : Nat), b.dma_rx_locked = false →
      (usart_bus_recv b size).2.rx_error = USART_ERROR_NONE) ∧
    (∀ b : usart_bus_t, (usart_bus_wake b).rx_error = USART_ERROR_NONE) := by
  refine ⟨?_, ?_, ?_, ?_⟩
  · intro b hb
    induction hb with
    | init b cfg h =>
      by_cases hc : cfg.usart_device = none ∨ cfg.dma_rx_channel = none ∨
          cfg.dma_tx_channel = none
      · simp [usart_bus_init, hc] at h
      · simp [usart_bus_init, hc, usart_error_inv]
    | send b size hb ih =>
      by_cases hl : b.dma_tx_locked
      · simpa [usart_bus_send, hl] using ih
      · exact ⟨by simpa [usart_bus_send, hl] using ih.1,
          by simp [usart_bus_send, hl]⟩
    | recv b size hb ih =>
      by_cases hl : b.dma_rx_locked
      · simpa [usart_bus_recv, hl] using ih
      · exact ⟨by simp [usart_bus_recv, hl],
          by simpa [usart_bus_recv, hl] using ih.2⟩
    | sleep b hb ih =>
      exact ⟨by simp [usart_bus_sleep],
        by simpa [usart_bus_sleep] using ih.2⟩
    | wake b hb ih =>
      exact ⟨by simp [usart_bus_wake],
        by simpa [usart_bus_wake] using ih.2⟩
    | irq b f r hb ih =>
      unfold usart_bus_irq_handler
      split_ifs <;>
        first
          | exact ih
          | exact ⟨by simp, by simpa using ih.2⟩
    | dma_rx b tc te hb ih =>
      unfold usart_bus_dma_rx_channel_irq_handler
      split_ifs <;>
        first
          | exact ih
          | exact ⟨by simp, by simpa using ih.2⟩
    | dma_tx b tc te hb ih =>
      unfold usart_bus_dma_tx_channel_irq_handler
      split_ifs <;>
        first
          | exact ih
          | exact ⟨by simpa using ih.1, by simp⟩
  · intro b size h
    simp [usart_bus_send, h]
  · intro b size h
    simp [usart_bus_recv, h]
  · intro b
    simp [usart_bus_wake]

/-- C8 witness: the invariant holds at the concrete reachable state
obtained by a successful `init` followed by a `recv` and a DMA error
interrupt; and the error-reset part at concrete inputs. -/
theorem usart_bus_error_pairing_invariant_witness :
    usart_error_inv
      (usart_bus_dma_rx_channel_irq_handler
        (usart_bus_recv (usart_bus_init busBothLocked cfgValid).2 8).2
        false true).bus ∧
    (usart_bus_send busUnlocked 4).2.tx_error = USART_ERROR_NONE ∧
    (usart_bus_recv busUnlocked 4).2.rx_error = USART_ERROR_NONE ∧
    (usart_bus_wake busUnlocked).rx_error = USART_ERROR_NONE :=
  ⟨usart_bus_error_pairing_invariant.1 _
      (UsartReachable.dma_rx _ false true
        (UsartReachable.recv _ 8
          (UsartReachable.init busBothLocked cfgValid (by decide)))),
   usart_bus_error_pairing_invariant.2.1 busUnlocked 4 (by decide),
   usart_bus_error_pairing_invariant.2.2.1 busUnlocked 4 (by decide),
   usart_bus_error_pairing_invariant.2.2.2 busUnlocked⟩
